import Mathlib

/-!
# http-over-ssh: tunnel connection, request router and start-up defaults

A shallow embedding of `client.go`, `http.go` and the `sshTimeout` initialiser of
`main.go`.  The libraries the program calls (the SSH transport, `net/http`,
`time.ParseDuration`) are parameters: every theorem holds for all of their behaviours.
The per-client mutex is not modelled: one call of `dial` is looked at in isolation,
which is what the lock guarantees.
-/

namespace HttpOverSsh

/-! ## Go values -/

/-- A Go `error` value that is not nil: `io.EOF` (compared by identity in `dial`) or any
other error, with its message. -/
inductive GoError where
  | EOF
  | other (text : String)
  deriving DecidableEq, Repr

/-- The method `Error()` of an error value. -/
def GoError.Error : GoError → String
  | .EOF => "EOF"
  | .other text => text

deriving instance DecidableEq for Except

/-- A `*ssh.Client`: the identity of one established transport. -/
abbrev Handle := Nat

/-- A `net.Conn` opened through a transport. -/
abbrev Conn := Nat

/-! ## client.go -/

/-- The struct `clientKey`; `port` is a `uint16`. -/
structure clientKey where
  host : String
  port : Nat
  username : String
  deriving DecidableEq, Repr

/-- Go's `net.JoinHostPort`: the host is bracketed when it holds a colon. -/
def JoinHostPort (host port : String) : String :=
  if host.any (fun c => c = ':') then "[" ++ host ++ "]:" ++ port
  else host ++ ":" ++ port

/-- The method `clientKey.hostPort`. -/
def clientKey.hostPort (key : clientKey) : String :=
  JoinHostPort key.host (toString key.port)

/-- One pair of counters of the global `metrics` (its declaration is not part of the
sources at hand; the counters are taken as unbounded). -/
structure Counter where
  established : Nat
  failed : Nat
  deriving DecidableEq, Repr

/-- The global `metrics`. -/
structure Metrics where
  connections : Counter
  forwardings : Counter
  deriving DecidableEq, Repr

/-- The struct `client`, without its configuration and its lock: `sshClient` is `none`
for Go's nil. -/
structure client where
  key : clientKey
  sshClient : Option Handle
  deriving DecidableEq, Repr

/-- The SSH library as `dial` uses it, over any state `σ` of the outside world:
`ssh.Dial`, `(*ssh.Client).Dial`, the keep-alive `SendRequest` (its error only) and
`(*ssh.Client).Close`. -/
structure Ssh (σ : Type) where
  Dial : String → σ → Except GoError Handle × σ
  ClientDial : Handle → String → String → σ → Except GoError Conn × σ
  SendRequest : Handle → σ → Option GoError × σ
  Close : Handle → σ → σ

/-- The library calls a run performs, in order, with what each returned. -/
inductive Event where
  | sshDial (addr : String) (res : Except GoError Handle)
  | streamDial (h : Handle) (network address : String) (res : Except GoError Conn)
  | keepAlive (h : Handle) (err : Option GoError)
  | close (h : Handle)
  deriving DecidableEq

/-- Everything a call of `dial` reads and writes: the outside world, the global
`metrics`, the receiver, and the log of library calls made so far. -/
structure Proc (σ : Type) where
  world : σ
  metrics : Metrics
  cl : client
  trace : List Event

variable {σ : Type}

/-- The counter update `metrics.connections.failed++`. -/
def Metrics.connFailed (m : Metrics) : Metrics :=
  { m with connections := { m.connections with failed := m.connections.failed + 1 } }

/-- The counter update `metrics.connections.established++`. -/
def Metrics.connEstablished (m : Metrics) : Metrics :=
  { m with connections := { m.connections with established := m.connections.established + 1 } }

/-- The counter update `metrics.forwardings.failed++`. -/
def Metrics.fwdFailed (m : Metrics) : Metrics :=
  { m with forwardings := { m.forwardings with failed := m.forwardings.failed + 1 } }

/-- The counter update `metrics.forwardings.established++`. -/
def Metrics.fwdEstablished (m : Metrics) : Metrics :=
  { m with forwardings := { m.forwardings with established := m.forwardings.established + 1 } }

/-- The method `client.connect`: `ssh.Dial`, then either `connections.failed++` and the
error, or the new handle stored in `sshClient` and `connections.established++`. -/
def connect (ssh : Ssh σ) (s : Proc σ) : Option GoError × Proc σ :=
  match ssh.Dial s.cl.key.hostPort s.world with
  | (.error err, w) =>
    (some err,
      { s with world := w
               trace := s.trace ++ [Event.sshDial s.cl.key.hostPort (.error err)]
               metrics := s.metrics.connFailed })
  | (.ok sshClient, w) =>
    (none,
      { s with world := w
               trace := s.trace ++ [Event.sshDial s.cl.key.hostPort (.ok sshClient)]
               cl := { s.cl with sshClient := some sshClient }
               metrics := s.metrics.connEstablished })

/-- Lines 65-69 of `dial`: `connect` is called only when `sshClient` is nil. -/
def connectIfNil (ssh : Ssh σ) (s : Proc σ) : Option GoError × Proc σ :=
  match s.cl.sshClient with
  | none => connect ssh s
  | some _ => (none, s)

/-- Line 72 of `dial`: `client.sshClient.Dial(network, address)` on the handle `h`. -/
def streamDial (ssh : Ssh σ) (h : Handle) (network address : String) (s : Proc σ) :
    Except GoError Conn × Proc σ :=
  match ssh.ClientDial h network address s.world with
  | (res, w) =>
    (res, { s with world := w, trace := s.trace ++ [Event.streamDial h network address res] })

/-- The method `client.isAlive` on the handle `h`: a keep-alive request, alive when it
returns no error. -/
def isAlive (ssh : Ssh σ) (h : Handle) (s : Proc σ) : Bool × Proc σ :=
  match ssh.SendRequest h s.world with
  | (err, w) =>
    (err.isNone, { s with world := w, trace := s.trace ++ [Event.keepAlive h err] })

/-- The last operand of line 74, `err == io.EOF || !client.isAlive()`: the keep-alive
is sent only when the error is not `io.EOF`. -/
def brokenTransport (ssh : Ssh σ) (h : Handle) (err : GoError) (s : Proc σ) :
    Bool × Proc σ :=
  if err = GoError.EOF then (true, s)
  else
    match isAlive ssh h s with
    | (alive, s1) => (!alive, s1)

/-- Lines 76-77 of `dial`: `client.sshClient.Close()` and `client.sshClient = nil`. -/
def discard (ssh : Ssh σ) (h : Handle) (s : Proc σ) : Proc σ :=
  { s with world := ssh.Close h s.world
           trace := s.trace ++ [Event.close h]
           cl := { s.cl with sshClient := none } }

/-- Lines 82-88 of `dial`: one of the two forwarding counters is incremented and
`conn, err` is returned. -/
def finish (res : Except GoError Conn) (s : Proc σ) :
    Option (Except GoError Conn) × Proc σ :=
  match res with
  | .ok conn => (some (.ok conn), { s with metrics := s.metrics.fwdEstablished })
  | .error err => (some (.error err), { s with metrics := s.metrics.fwdFailed })

/-- The body of `dial` from the label `retry` on, with the current value of the local
`retried`.  The result is `some` of what Go returns (`conn, err`), or `none` for a nil
pointer dereference of `client.sshClient` (shown below never to happen). -/
def dialFrom (ssh : Ssh σ) (network address : String) (retried : Bool) (s : Proc σ) :
    Option (Except GoError Conn) × Proc σ :=
  match connectIfNil ssh s with
  | (some err, s1) => (some (.error err), s1)
  | (none, s1) =>
    match s1.cl.sshClient with
    | none => (none, s1)
    | some h =>
      match streamDial ssh h network address s1 with
      | (.ok conn, s2) => finish (.ok conn) s2
      | (.error err, s2) =>
        if _ : retried = false then
          match brokenTransport ssh h err s2 with
          | (true, s3) => dialFrom ssh network address true (discard ssh h s3)
          | (false, s3) => finish (.error err) s3
        else finish (.error err) s2
termination_by (if retried then 0 else 1)
decreasing_by simp_all

/-- The method `client.dial`: `retried := false`, then the body. -/
def dial (ssh : Ssh σ) (network address : String) (s : Proc σ) :
    Option (Except GoError Conn) × Proc σ :=
  dialFrom ssh network address false s

/-! ## The shapes of a call of `dial` -/

/-- How a transport comes to be at hand at line 71: it was there, or `connect` made it. -/
def Start (c0 : Option Handle) (m0 : Metrics) (P : List Event) (h : Handle) (m1 : Metrics) :
    Prop :=
  (c0 = some h ∧ P = [] ∧ m1 = m0) ∨
    (c0 = none ∧ ∃ a, P = [Event.sshDial a (.ok h)] ∧ m1 = m0.connEstablished)

/-- The first stream-open on `h` failed with `e` and line 74 found the transport dead:
`e` is `io.EOF`, or the keep-alive returned an error. -/
def Broken (h : Handle) (network address : String) (e : GoError) (K : List Event) : Prop :=
  (e = GoError.EOF ∧ K = [Event.streamDial h network address (.error e)]) ∨
    (e ≠ GoError.EOF ∧
      ∃ pe, K = [Event.streamDial h network address (.error e), Event.keepAlive h (some pe)])

/-- The counter update of lines 82-86 for the result `r`. -/
def Metrics.fwd (m : Metrics) (r : Except GoError Conn) : Metrics :=
  match r with
  | .ok _ => m.fwdEstablished
  | .error _ => m.fwdFailed

/-- The five shapes a call of `dial` can take, each with the library calls it makes
(`evs`), what it returns (`res`), and `sshClient` and `metrics` on return. -/
def Path (network address : String) (c0 : Option Handle) (m0 : Metrics) (evs : List Event)
    (res : Option (Except GoError Conn)) (c1 : Option Handle) (m1 : Metrics) : Prop :=
  (c0 = none ∧ ∃ a e, evs = [Event.sshDial a (.error e)] ∧ res = some (.error e) ∧
      c1 = none ∧ m1 = m0.connFailed) ∨
  (∃ P h m, Start c0 m0 P h m ∧ ∃ conn,
      evs = P ++ [Event.streamDial h network address (.ok conn)] ∧
      res = some (.ok conn) ∧ c1 = some h ∧ m1 = m.fwdEstablished) ∨
  (∃ P h m, Start c0 m0 P h m ∧ ∃ e, e ≠ GoError.EOF ∧
      evs = P ++ [Event.streamDial h network address (.error e), Event.keepAlive h none] ∧
      res = some (.error e) ∧ c1 = some h ∧ m1 = m.fwdFailed) ∨
  (∃ P h m, Start c0 m0 P h m ∧ ∃ e K, Broken h network address e K ∧ ∃ a e2,
      evs = P ++ K ++ [Event.close h, Event.sshDial a (.error e2)] ∧
      res = some (.error e2) ∧ c1 = none ∧ m1 = m.connFailed) ∨
  (∃ P h m, Start c0 m0 P h m ∧ ∃ e K, Broken h network address e K ∧ ∃ a h1 r,
      evs = P ++ K ++
        [Event.close h, Event.sshDial a (.ok h1), Event.streamDial h1 network address r] ∧
      res = some r ∧ c1 = some h1 ∧ m1 = (m.connEstablished).fwd r)

/-! ## Observations and sample environments for `dial` -/

/-- Whether an event is a stream-open, `(*ssh.Client).Dial`. -/
def Event.isStreamDial : Event → Bool
  | .streamDial _ _ _ _ => true
  | _ => false

/-- Whether an event is a transport establishment, `ssh.Dial`. -/
def Event.isSshDial : Event → Bool
  | .sshDial _ _ => true
  | _ => false

/-- Whether an event discards a transport, `(*ssh.Client).Close`. -/
def Event.isClose : Event → Bool
  | .close _ => true
  | _ => false

/-- The sum `metrics.forwardings.established + metrics.forwardings.failed`. -/
def Metrics.forwarded (m : Metrics) : Nat :=
  m.forwardings.established + m.forwardings.failed

/-- A scripted outside world: the outcomes the next calls of `ssh.Dial`, of
`(*ssh.Client).Dial` and of the keep-alive request will have, in order. -/
structure Script where
  dials : List (Except GoError Handle)
  opens : List (Except GoError Conn)
  probes : List (Option GoError)
  deriving DecidableEq

/-- The SSH library played from a script; a call beyond the script fails. -/
def scripted : Ssh Script where
  Dial := fun _ w =>
    match w.dials with
    | [] => (.error (.other "no route to host"), w)
    | r :: rest => (r, { w with dials := rest })
  ClientDial := fun _ _ _ w =>
    match w.opens with
    | [] => (.error (.other "connection refused"), w)
    | r :: rest => (r, { w with opens := rest })
  SendRequest := fun _ w =>
    match w.probes with
    | [] => (some (.other "use of closed network connection"), w)
    | r :: rest => (r, { w with probes := rest })
  Close := fun _ w => w

/-- The identity `alice@jump.example:2222`. -/
def jumpKey : clientKey := { host := "jump.example", port := 2222, username := "alice" }

/-- A process whose tunnel connection has the transport `sshClient`, all counters at
zero, in the scripted world `w`. -/
def procAt (sshClient : Option Handle) (w : Script) : Proc Script :=
  { world := w
    metrics := { connections := { established := 0, failed := 0 }
                 forwardings := { established := 0, failed := 0 } }
    cl := { key := jumpKey, sshClient := sshClient }
    trace := [] }

/-! ## http.go -/

/-- Bytes, as they travel in a request or response body. -/
abbrev Bytes := List UInt8

/-- The bytes of a Go string (UTF-8). -/
def bytesOf (s : String) : Bytes := s.toUTF8.data.toList

/-- Go's `http.Header`, a map from a name to its list of values, as an association list
(a Go map has each key once; `range` visits the entries in an unspecified order, here
the order of the list, whatever it is). -/
abbrev Header := List (String × List String)

/-- The map read `h[key]`: the values stored under `key`, nil when there are none. -/
def Header.Values : Header → String → List String
  | [], _ => []
  | (k, vv) :: rest, key => if k = key then vv else Header.Values rest key

/-- The map write `h[key] = append(h[key], value)`. -/
def Header.appendValue : Header → String → String → Header
  | [], key, value => [(key, [value])]
  | (k, vv) :: rest, key, value =>
    if k = key then (k, vv ++ [value]) :: rest
    else (k, vv) :: Header.appendValue rest key value

/-- Go's `Header.Add`: the key is first put in canonical form, by
`textproto.CanonicalMIMEHeaderKey` (the parameter `canon`). -/
def Header.Add (canon : String → String) (h : Header) (key value : String) : Header :=
  Header.appendValue h (canon key) value

/-- The function `copyHeader`: every value of every entry of `src` is added to `dst`. -/
def copyHeader (canon : String → String) (dst src : Header) : Header :=
  src.foldl (fun d kv => kv.2.foldl (fun d v => Header.Add canon d kv.1 v) d) dst

/-- A `*http.Request`, inbound or outbound: `URL` is the URL string an outbound request
was built from, `RequestURI` the request target of an inbound one, `Body` is `none` for
Go's nil, and `jumpHost` is the jump-host spec the request's `proxyContext` carries, if
it has one. -/
structure Request where
  Method : String
  URL : String
  RequestURI : String
  Header : Header
  Body : Option Bytes
  jumpHost : Option String
  deriving DecidableEq

/-- A `*http.Response`. -/
structure Response where
  StatusCode : Nat
  Header : Header
  Body : Bytes
  deriving DecidableEq

/-- An `http.ResponseWriter`: the header map `w.Header()`, the status line and headers
once sent (`wrote`), the body bytes written, and whether a call of `WriteHeader` has
panicked (`panicked`).  A panic unwinds the handler, so no statement after it runs:
every later call on a panicked writer leaves it as it is. -/
structure ResponseWriter where
  header : Header
  wrote : Option (Nat × Header)
  body : Bytes
  panicked : Bool
  deriving DecidableEq

/-- The writer a handler is given: nothing set, nothing sent. -/
def ResponseWriter.fresh : ResponseWriter :=
  { header := [], wrote := none, body := [], panicked := false }

/-- The method `WriteHeader`: a call after the first is ignored; the first call panics
when the code is below 100 or above 999 (Go's `checkWriteHeaderCode`), and otherwise
sends the status with the header map as it stands. -/
def ResponseWriter.WriteHeader (w : ResponseWriter) (code : Nat) : ResponseWriter :=
  if w.panicked then w
  else
    match w.wrote with
    | some _ => w
    | none =>
      if code < 100 ∨ 999 < code then { w with panicked := true }
      else { w with wrote := some (code, w.header) }

/-- The method `Write`: status 200 is sent first if none was, then the bytes. -/
def ResponseWriter.Write (w : ResponseWriter) (p : Bytes) : ResponseWriter :=
  if w.panicked then w
  else { w.WriteHeader 200 with body := w.body ++ p }

/-- Go's `fmt.Fprintln(w, ...)` once the operands are joined by blanks into `line`. -/
def Fprintln (w : ResponseWriter) (line : String) : ResponseWriter :=
  w.Write (bytesOf (line ++ "\n"))

/-- Go's `io.Copy(w, body)`: all the bytes of the body are written; an empty body
makes no call of `Write`. -/
def ioCopy (w : ResponseWriter) (body : Bytes) : ResponseWriter :=
  if body = [] then w else w.Write body

/-- The HTTP library and client as `ServeHTTP` uses them, over any state `ω` of the
world behind the client: the error `http.NewRequest(method, url, nil)` returns if any
(`checkRequest`), `proxy.httpClient.Do`, and `textproto.CanonicalMIMEHeaderKey`. -/
structure HttpLib (ω : Type) where
  checkRequest : String → String → Option GoError
  Do : Request → ω → Except GoError Response × ω
  canon : String → String

/-- The calls `ServeHTTP` makes to build and send the outbound request. -/
inductive HttpCall where
  | newRequest (method url : String)
  | httpDo (req : Request) (res : Except GoError Response)
  deriving DecidableEq

/-- Go's `http.NewRequest(method, url, nil)`: an empty method stands for GET, the
header map is empty and there is no body. -/
def NewRequest {ω : Type} (lib : HttpLib ω) (method url : String) : Except GoError Request :=
  match lib.checkRequest method url with
  | some err => .error err
  | none =>
    .ok { Method := if method = "" then "GET" else method
          URL := url
          RequestURI := ""
          Header := []
          Body := none
          jumpHost := none }

/-- Go's `strings.Index` for a one-character separator, as a split: the text before
the first separator and the text after it, `none` when there is no separator. -/
def cut (sep : Char) : List Char → Option (List Char × List Char)
  | [] => none
  | c :: cs =>
    if c = sep then some ([], cs)
    else (cut sep cs).map (fun p => (c :: p.1, p.2))

/-- Go's `strings.SplitN(s, sep, n)` on the characters of `s`, for a one-character
separator: at most `n` pieces, the last one the unsplit remainder. -/
def splitChars (sep : Char) : Nat → List Char → List (List Char)
  | 0, _ => []
  | 1, s => [s]
  | n + 2, s =>
    match cut sep s with
    | none => [s]
    | some (piece, rest) => piece :: splitChars sep (n + 1) rest

/-- Go's `strings.SplitN` for a one-character separator (a slash is one byte and no
part of a longer UTF-8 sequence, so splitting characters is splitting bytes). -/
def SplitN (s : String) (sep : Char) (n : Nat) : List String :=
  (splitChars sep n s.data).map String.mk

/-- What a call of `ServeHTTP` leaves behind: the response writer, the world behind the
HTTP client, and the calls made to build and send the outbound request. -/
structure Served (ω : Type) where
  w : ResponseWriter
  world : ω
  calls : List HttpCall

/-- The method `Proxy.ServeHTTP`.  The first `match` is the test `len(parts) != 3`:
three parts are `parts[0]` (ignored), the jump host `parts[1]` and the destination
`parts[2]`.  When `WriteHeader` panics on the status code of the response, the run
ends there: the writer is left panicked and `io.Copy` writes nothing. -/
def ServeHTTP {ω : Type} (lib : HttpLib ω) (w : ResponseWriter) (r : Request) (world : ω) :
    Served ω :=
  match SplitN r.RequestURI '/' 3 with
  | [_, jump, dest] =>
    match NewRequest lib r.Method ("http://" ++ dest) with
    | .error err =>
      { w := Fprintln (w.WriteHeader 400) ("unable to build request: " ++ err.Error)
        world := world
        calls := [HttpCall.newRequest r.Method ("http://" ++ dest)] }
    | .ok req0 =>
      let req : Request := { req0 with jumpHost := some jump, Body := r.Body }
      match lib.Do req world with
      | (.error err, world1) =>
        { w := Fprintln (w.WriteHeader 502) err.Error
          world := world1
          calls := [HttpCall.newRequest r.Method ("http://" ++ dest),
            HttpCall.httpDo req (.error err)] }
      | (.ok res, world1) =>
        { w := ioCopy
            ({ w with header := copyHeader lib.canon w.header res.Header }.WriteHeader
              res.StatusCode)
            res.Body
          world := world1
          calls := [HttpCall.newRequest r.Method ("http://" ++ dest),
            HttpCall.httpDo req (.ok res)] }
  | _ => { w := w.WriteHeader 422, world := world, calls := [] }

/-! ## main.go -/

/-- Go's `time.Duration`, a number of nanoseconds. -/
abbrev Duration := Int

/-- Go's `time.Second`. -/
def Second : Duration := 1000000000

/-- The initialiser of the variable `sshTimeout`, over `os.Getenv` and
`time.ParseDuration` (which returns a duration and an error, `none` for nil). -/
def sshTimeout (getenv : String → String) (ParseDuration : String → Duration × Option GoError) :
    Duration :=
  let dur := getenv "HOS_TIMEOUT"
  if dur ≠ "" then
    match ParseDuration dur with
    | (d, some _) => d
    | (_, none) => 10 * Second
  else 10 * Second

/-! ## Sample environments for `ServeHTTP` and `sshTimeout` -/

/-- The request an `httpDo` call sent. -/
def HttpCall.sent : HttpCall → Option Request
  | .httpDo req _ => some req
  | .newRequest _ _ => none

/-- An HTTP library that accepts every request and a client whose `Do` always fails
with the error `err`. -/
def failingLib (err : GoError) : HttpLib Unit :=
  { checkRequest := fun _ _ => none, Do := fun _ w => (.error err, w), canon := id }

/-- An inbound request with the given method, target, headers and body. -/
def inbound (method target : String) (header : Header) (body : Bytes) : Request :=
  { Method := method, URL := "", RequestURI := target, Header := header, Body := some body
    jumpHost := none }

/-- How the sample client below reports a failed dial: the dial's error text behind the
operation and URL, the way `net/http` wraps it. -/
def wrapDial (err : GoError) : GoError :=
  GoError.other ("Get http://db.internal:5432: " ++ err.Error)

/-- An HTTP library that accepts every request, with a client that dials through the
scripted transport and gets an empty 200 response when the dial succeeds. -/
def tunnelLib (network address : String) : HttpLib (Proc Script) :=
  { checkRequest := fun _ _ => none
    Do := fun _ s =>
      match dial scripted network address s with
      | (some (.error err), s1) => (.error (wrapDial err), s1)
      | (_, s1) => (.ok { StatusCode := 200, Header := [], Body := [] }, s1)
    canon := id }

/-- An environment in which `HOS_TIMEOUT` has the value `v` and nothing else is set. -/
def envWith (v : String) : String → String :=
  fun name => if name = "HOS_TIMEOUT" then v else ""

/-- The results of `time.ParseDuration` on the two strings used below: `30s` is thirty
seconds, `abc` is refused with duration 0, as is anything else here. -/
def parseSample : String → Duration × Option GoError :=
  fun s =>
    if s = "30s" then (30 * Second, none)
    else (0, some (GoError.other ("time: invalid duration " ++ s)))

/-! # Theorems -/

/-! ## Unfolding `dial` -/

theorem dialFrom_true_eq (ssh : Ssh σ) (network address : String) (s : Proc σ) :
    dialFrom ssh network address true s =
      match connectIfNil ssh s with
      | (some err, s1) => (some (.error err), s1)
      | (none, s1) =>
        match s1.cl.sshClient with
        | none => (none, s1)
        | some h => finish (streamDial ssh h network address s1).1 (streamDial ssh h network address s1).2 := by
  rw [dialFrom]
  split
  · rfl
  · split
    · rfl
    · split <;> simp_all

theorem dialFrom_false_eq (ssh : Ssh σ) (network address : String) (s : Proc σ) :
    dialFrom ssh network address false s =
      match connectIfNil ssh s with
      | (some err, s1) => (some (.error err), s1)
      | (none, s1) =>
        match s1.cl.sshClient with
        | none => (none, s1)
        | some h =>
          match streamDial ssh h network address s1 with
          | (.ok conn, s2) => finish (.ok conn) s2
          | (.error err, s2) =>
            match brokenTransport ssh h err s2 with
            | (true, s3) => dialFrom ssh network address true (discard ssh h s3)
            | (false, s3) => finish (.error err) s3 := by
  rw [dialFrom]
  simp

theorem streamDial_eq (ssh : Ssh σ) (h : Handle) (network address : String) (s : Proc σ) :
    streamDial ssh h network address s =
      ((ssh.ClientDial h network address s.world).1,
        { s with world := (ssh.ClientDial h network address s.world).2
                 trace := s.trace ++
                   [Event.streamDial h network address (ssh.ClientDial h network address s.world).1] }) :=
  rfl

theorem isAlive_eq (ssh : Ssh σ) (h : Handle) (s : Proc σ) :
    isAlive ssh h s =
      ((ssh.SendRequest h s.world).1.isNone,
        { s with world := (ssh.SendRequest h s.world).2
                 trace := s.trace ++ [Event.keepAlive h (ssh.SendRequest h s.world).1] }) :=
  rfl

theorem finish_eq (r : Except GoError Conn) (s : Proc σ) :
    finish r s = (some r, { s with metrics := s.metrics.fwd r }) := by
  cases r <;> rfl

theorem connectIfNil_cases (ssh : Ssh σ) (s : Proc σ) :
    (∃ h, s.cl.sshClient = some h ∧ connectIfNil ssh s = (none, s)) ∨
    (s.cl.sshClient = none ∧ ∃ a e w, connectIfNil ssh s =
      (some e, { s with world := w, trace := s.trace ++ [Event.sshDial a (.error e)]
                        metrics := s.metrics.connFailed })) ∨
    (s.cl.sshClient = none ∧ ∃ a h w, connectIfNil ssh s =
      (none, { s with world := w, trace := s.trace ++ [Event.sshDial a (.ok h)]
                      cl := { s.cl with sshClient := some h }
                      metrics := s.metrics.connEstablished })) := by
  unfold connectIfNil
  cases hc : s.cl.sshClient with
  | some h => exact Or.inl ⟨h, rfl, rfl⟩
  | none =>
    right
    simp only [connect, true_and]
    rcases hd : ssh.Dial s.cl.key.hostPort s.world with ⟨r, w⟩
    cases r with
    | error e => exact Or.inl ⟨_, e, w, rfl⟩
    | ok h => exact Or.inr ⟨_, h, w, rfl⟩

theorem dialFrom_true_path (ssh : Ssh σ) (network address : String) (s : Proc σ)
    (hnil : s.cl.sshClient = none) :
    (∃ a e, (dialFrom ssh network address true s).2.trace =
        s.trace ++ [Event.sshDial a (.error e)] ∧
      (dialFrom ssh network address true s).1 = some (.error e) ∧
      (dialFrom ssh network address true s).2.cl.sshClient = none ∧
      (dialFrom ssh network address true s).2.metrics = s.metrics.connFailed) ∨
    (∃ a h1 r, (dialFrom ssh network address true s).2.trace =
        s.trace ++ [Event.sshDial a (.ok h1), Event.streamDial h1 network address r] ∧
      (dialFrom ssh network address true s).1 = some r ∧
      (dialFrom ssh network address true s).2.cl.sshClient = some h1 ∧
      (dialFrom ssh network address true s).2.metrics = (s.metrics.connEstablished).fwd r) := by
  rw [dialFrom_true_eq]
  rcases connectIfNil_cases ssh s with ⟨h, hh, _⟩ | ⟨_, a, e, w, hc⟩ | ⟨_, a, h, w, hc⟩
  · simp [hnil] at hh
  · exact Or.inl ⟨a, e, by simp [hc, hnil]⟩
  · exact Or.inr ⟨a, h, (ssh.ClientDial h network address w).1,
      by simp [hc, finish_eq, streamDial_eq]⟩

theorem dial_paths (ssh : Ssh σ) (network address : String) (s : Proc σ) :
    ∃ evs, (dial ssh network address s).2.trace = s.trace ++ evs ∧
      Path network address s.cl.sshClient s.metrics evs (dial ssh network address s).1
        (dial ssh network address s).2.cl.sshClient (dial ssh network address s).2.metrics := by
  -- a transport at hand, then the first stream-open
  have main : ∀ (s1 : Proc σ) (P : List Event) (h : Handle),
      s1.cl.sshClient = some h → s1.trace = s.trace ++ P →
      Start s.cl.sshClient s.metrics P h s1.metrics →
      connectIfNil ssh s = (none, s1) →
      ∃ evs, (dial ssh network address s).2.trace = s.trace ++ evs ∧
        Path network address s.cl.sshClient s.metrics evs (dial ssh network address s).1
          (dial ssh network address s).2.cl.sshClient
          (dial ssh network address s).2.metrics := by
    intro s1 P h hh htr hst hc
    rw [dial, dialFrom_false_eq, hc]
    simp only [hh, streamDial_eq]
    rcases hd : ssh.ClientDial h network address s1.world with ⟨r, w1⟩
    cases r with
    | ok conn =>
      refine ⟨P ++ [Event.streamDial h network address (.ok conn)], ?_, ?_⟩
      · simp [finish_eq, htr]
      · exact Or.inr (Or.inl ⟨P, h, _, hst, conn, rfl, by simp [finish_eq, hh, Metrics.fwd]⟩)
    | error e =>
      simp only []
      -- the retried attempt, after the transport was discarded
      have retry : ∀ (s3 : Proc σ) (K : List Event), Broken h network address e K →
          s3.trace = s.trace ++ (P ++ K) → s3.metrics = s1.metrics →
          ∃ evs, (dialFrom ssh network address true (discard ssh h s3)).2.trace = s.trace ++ evs ∧
            Path network address s.cl.sshClient s.metrics evs
              (dialFrom ssh network address true (discard ssh h s3)).1
              (dialFrom ssh network address true (discard ssh h s3)).2.cl.sshClient
              (dialFrom ssh network address true (discard ssh h s3)).2.metrics := by
        intro s3 K hK htr3 hm3
        rcases dialFrom_true_path ssh network address (discard ssh h s3) rfl with
          ⟨a, e2, h1, h2, h3, h4⟩ | ⟨a, h1, r, h2, h3, h4, h5⟩
        · refine ⟨P ++ K ++ [Event.close h, Event.sshDial a (.error e2)], ?_, ?_⟩
          · rw [h1]; simp [discard, htr3]
          · exact Or.inr (Or.inr (Or.inr (Or.inl
              ⟨P, h, _, hst, e, K, hK, a, e2, rfl, h2, h3, by rw [h4]; simp [discard, hm3]⟩)))
        · refine ⟨P ++ K ++ [Event.close h, Event.sshDial a (.ok h1),
            Event.streamDial h1 network address r], ?_, ?_⟩
          · rw [h2]; simp [discard, htr3]
          · exact Or.inr (Or.inr (Or.inr (Or.inr
              ⟨P, h, _, hst, e, K, hK, a, h1, r, rfl, h3, h4, by rw [h5]; simp [discard, hm3]⟩)))
      by_cases he : e = GoError.EOF
      · simp only [brokenTransport, he, if_true]
        exact retry _ _ (Or.inl ⟨he, by rw [he]⟩) (by simp [htr, he]) rfl
      · simp only [brokenTransport, he, if_false, isAlive_eq]
        rcases hp : ssh.SendRequest h w1 with ⟨pe, w2⟩
        cases pe with
        | none =>
          refine ⟨P ++ [Event.streamDial h network address (.error e), Event.keepAlive h none],
            ?_, ?_⟩
          · simp [finish_eq, htr]
          · exact Or.inr (Or.inr (Or.inl
              ⟨P, h, _, hst, e, he, rfl, by simp [finish_eq, hh, Metrics.fwd]⟩))
        | some pe =>
          exact retry _ _ (Or.inr ⟨he, pe, rfl⟩) (by simp [htr]) rfl
  rcases connectIfNil_cases ssh s with ⟨h, hh, hc⟩ | ⟨hn, a, e, w, hc⟩ | ⟨hn, a, h, w, hc⟩
  · exact main s [] h hh (by simp) (Or.inl ⟨hh, rfl, rfl⟩) hc
  · refine ⟨[Event.sshDial a (.error e)], ?_, Or.inl ⟨hn, a, e, rfl, ?_⟩⟩
    · rw [dial, dialFrom_false_eq, hc]
    · rw [dial, dialFrom_false_eq, hc]
      simp [hn]
  · exact main _ [Event.sshDial a (.ok h)] h rfl rfl (Or.inr ⟨hn, a, rfl, rfl⟩) hc

theorem split_at_close (A B pre post : List Event) (h k : Handle)
    (hA : ∀ x ∈ A, x.isClose = false)
    (heq : A ++ Event.close h :: B = pre ++ Event.close k :: post) :
    (pre = A ∧ post = B) ∨ ∃ x ∈ B, x.isClose = true := by
  induction A generalizing pre with
  | nil =>
    cases pre with
    | nil => simp at heq; exact Or.inl ⟨rfl, heq.2.symm⟩
    | cons p pre =>
      simp at heq
      refine Or.inr ⟨Event.close k, ?_, rfl⟩
      rw [heq.2]; simp
  | cons a A ih =>
    cases pre with
    | nil =>
      simp at heq
      have := hA a (by simp)
      rw [heq.1] at this
      simp [Event.isClose] at this
    | cons p pre =>
      simp at heq
      rcases ih pre (fun x hx => hA x (by simp [hx])) heq.2 with ⟨h1, h2⟩ | h3
      · exact Or.inl ⟨by rw [h1, heq.1], h2⟩
      · exact Or.inr h3

theorem no_close_of_split (L pre post : List Event) (k : Handle)
    (hL : ∀ x ∈ L, x.isClose = false) (heq : L = pre ++ Event.close k :: post) : False := by
  have := hL (Event.close k) (by rw [heq]; simp)
  simp [Event.isClose] at this

/-! ## Splitting the request target -/

theorem cut_none (sep : Char) (s : List Char) (h : sep ∉ s) : cut sep s = none := by
  induction s with
  | nil => rfl
  | cons c cs ih =>
    simp only [List.mem_cons, not_or] at h
    have hne : ¬ c = sep := fun hc => h.1 hc.symm
    simp [cut, hne, ih h.2]

theorem cut_append (sep : Char) (a rest : List Char) (h : sep ∉ a) :
    cut sep (a ++ sep :: rest) = some (a, rest) := by
  induction a with
  | nil => simp [cut]
  | cons c cs ih =>
    simp only [List.mem_cons, not_or] at h
    have hne : ¬ c = sep := fun hc => h.1 hc.symm
    simp [cut, hne, ih h.2]

theorem cut_some (sep : Char) (s a rest : List Char) (h : cut sep s = some (a, rest)) :
    s = a ++ sep :: rest ∧ sep ∉ a := by
  induction s generalizing a with
  | nil => simp [cut] at h
  | cons c cs ih =>
    by_cases hc : c = sep
    · simp [cut, hc] at h
      obtain ⟨rfl, rfl⟩ := h
      simp [hc]
    · simp only [cut, hc, if_false, Option.map_eq_some'] at h
      obtain ⟨⟨a1, r1⟩, h1, h2⟩ := h
      simp only [Prod.mk.injEq] at h2
      obtain ⟨rfl, rfl⟩ := h2
      obtain ⟨h3, h4⟩ := ih a1 h1
      refine ⟨by rw [h3]; simp, ?_⟩
      simp only [List.mem_cons, not_or]
      exact ⟨fun hs => hc hs.symm, h4⟩

theorem splitChars_short (sep : Char) (s : List Char) (h : s.count sep < 2) :
    (splitChars sep 3 s).length ≠ 3 := by
  unfold splitChars
  cases h1 : cut sep s with
  | none => simp
  | some p =>
    obtain ⟨a, rest⟩ := p
    obtain ⟨hs, ha⟩ := cut_some sep s a rest h1
    simp only [List.length_cons]
    unfold splitChars
    cases h2 : cut sep rest with
    | none => simp
    | some q =>
      obtain ⟨b, rest2⟩ := q
      obtain ⟨hr, hb⟩ := cut_some sep rest b rest2 h2
      exfalso
      rw [hs, hr] at h
      simp [List.count_append, List.count_cons] at h
      omega

theorem splitChars_three (sep : Char) (a b rest : List Char) (ha : sep ∉ a) (hb : sep ∉ b) :
    splitChars sep 3 (a ++ sep :: (b ++ sep :: rest)) = [a, b, rest] := by
  simp [splitChars, cut_append, ha, hb]

theorem SplitN_target (jump rest : String) (hj : '/' ∉ jump.data) :
    SplitN ("/" ++ jump ++ "/" ++ rest) '/' 3 = ["", jump, rest] := by
  have hd : ("/" ++ jump ++ "/" ++ rest).data = [] ++ '/' :: (jump.data ++ '/' :: rest.data) := by
    simp [String.data_append]
  rw [SplitN, hd, splitChars_three '/' [] jump.data rest.data (by simp) hj]
  rfl

/-! ## Copying headers -/

theorem ServeHTTP_short {ω : Type} (lib : HttpLib ω) (w : ResponseWriter) (r : Request)
    (world : ω) (h : (splitChars '/' 3 r.RequestURI.data).length ≠ 3) :
    ServeHTTP lib w r world = { w := w.WriteHeader 422, world := world, calls := [] } := by
  unfold ServeHTTP
  split
  · next heq =>
    exfalso
    apply h
    have := congrArg List.length heq
    simpa [SplitN] using this
  · rfl

theorem ServeHTTP_calls_cases {ω : Type} (lib : HttpLib ω) (w : ResponseWriter) (r : Request)
    (world : ω) :
    (ServeHTTP lib w r world = { w := w.WriteHeader 422, world := world, calls := [] }) ∨
    (∃ (dest : String) (err : GoError), ServeHTTP lib w r world =
      { w := Fprintln (w.WriteHeader 400) ("unable to build request: " ++ err.Error)
        world := world
        calls := [HttpCall.newRequest r.Method ("http://" ++ dest)] }) ∨
    (∃ p0 jump dest req0, SplitN r.RequestURI '/' 3 = [p0, jump, dest] ∧
      NewRequest lib r.Method ("http://" ++ dest) = .ok req0 ∧
      ((∃ err, (lib.Do { req0 with jumpHost := some jump, Body := r.Body } world).1 = .error err ∧
        ServeHTTP lib w r world =
          { w := Fprintln (w.WriteHeader 502) err.Error
            world := (lib.Do { req0 with jumpHost := some jump, Body := r.Body } world).2
            calls := [HttpCall.newRequest r.Method ("http://" ++ dest),
              HttpCall.httpDo { req0 with jumpHost := some jump, Body := r.Body }
                (.error err)] }) ∨
       (∃ res, (lib.Do { req0 with jumpHost := some jump, Body := r.Body } world).1 = .ok res ∧
        ServeHTTP lib w r world =
          { w := ioCopy
              ({ w with header := copyHeader lib.canon w.header res.Header }.WriteHeader
                res.StatusCode)
              res.Body
            world := (lib.Do { req0 with jumpHost := some jump, Body := r.Body } world).2
            calls := [HttpCall.newRequest r.Method ("http://" ++ dest),
              HttpCall.httpDo { req0 with jumpHost := some jump, Body := r.Body }
                (.ok res)] }))) := by
  unfold ServeHTTP
  rcases hs : SplitN r.RequestURI '/' 3 with
    _ | ⟨p0, _ | ⟨jump, _ | ⟨dest, _ | ⟨x, rest⟩⟩⟩⟩
  · exact Or.inl rfl
  · exact Or.inl rfl
  · exact Or.inl rfl
  · right
    simp only []
    cases hn : NewRequest lib r.Method ("http://" ++ dest) with
    | error err => exact Or.inl ⟨dest, err, rfl⟩
    | ok req0 =>
      right
      refine ⟨p0, jump, dest, req0, rfl, hn, ?_⟩
      simp only []
      rcases hd : lib.Do { req0 with jumpHost := some jump, Body := r.Body } world with ⟨res, w1⟩
      cases res with
      | error err => exact Or.inl ⟨err, rfl, rfl⟩
      | ok res => exact Or.inr ⟨res, rfl, rfl⟩
  · exact Or.inl rfl

theorem NewRequest_ok {ω : Type} (lib : HttpLib ω) (method url : String) (req0 : Request)
    (h : NewRequest lib method url = .ok req0) :
    req0 = { Method := if method = "" then "GET" else method, URL := url, RequestURI := ""
             Header := [], Body := none, jumpHost := none } := by
  unfold NewRequest at h
  cases hc : lib.checkRequest method url with
  | some err => simp [hc] at h
  | none =>
    simp only [hc, Except.ok.injEq] at h
    exact h.symm

/-! ## The tunnel connection: `dial` -/

/-- C5: every call of `dial` returns, after at most one reconnect.  Whatever the library
calls answer, the call returns a Go result (it never dereferences a nil `sshClient`),
makes at most two stream-open attempts, at most two transport-establishment attempts
and discards the transport at most once; and once the transport has been discarded,
what follows is one establishment attempt whose failure is returned, or one
establishment and one stream-open whose result, error or not, is returned: nothing is
retried again. -/
theorem dial_bounded_retry (ssh : Ssh σ) (network address : String) (s : Proc σ) :
    ∃ evs, (dial ssh network address s).2.trace = s.trace ++ evs ∧
      (dial ssh network address s).1.isSome = true ∧
      evs.countP Event.isStreamDial ≤ 2 ∧ evs.countP Event.isSshDial ≤ 2 ∧
      evs.countP Event.isClose ≤ 1 ∧
      ∀ pre h post, evs = pre ++ Event.close h :: post →
        (∃ a e, post = [Event.sshDial a (.error e)] ∧
          (dial ssh network address s).1 = some (.error e)) ∨
        (∃ a h1 r, post = [Event.sshDial a (.ok h1), Event.streamDial h1 network address r] ∧
          (dial ssh network address s).1 = some r) := by
  obtain ⟨evs, htr, hp⟩ := dial_paths ssh network address s
  refine ⟨evs, htr, ?_⟩
  rcases hp with ⟨-, a, e, rfl, hres, -, -⟩ | ⟨P, h, m, hst, conn, rfl, hres, -, -⟩ |
    ⟨P, h, m, hst, e, -, rfl, hres, -, -⟩ | ⟨P, h, m, hst, e, K, hK, a, e2, rfl, hres, -, -⟩ |
    ⟨P, h, m, hst, e, K, hK, a, h1, r, rfl, hres, -, -⟩
  · refine ⟨by simp [hres], by simp [Event.isStreamDial], by simp [Event.isSshDial],
      by simp [Event.isClose], ?_⟩
    intro pre k post heq
    exact (no_close_of_split _ pre post k (by simp [Event.isClose]) heq).elim
  · rcases hst with ⟨-, rfl, -⟩ | ⟨-, a, rfl, -⟩ <;>
    · refine ⟨by simp [hres], by simp [Event.isStreamDial], by simp [Event.isSshDial],
        by simp [Event.isClose], ?_⟩
      intro pre k post heq
      exact (no_close_of_split _ pre post k (by simp [Event.isClose]) heq).elim
  · rcases hst with ⟨-, rfl, -⟩ | ⟨-, a, rfl, -⟩ <;>
    · refine ⟨by simp [hres], by simp [Event.isStreamDial], by simp [Event.isSshDial],
        by simp [Event.isClose], ?_⟩
      intro pre k post heq
      exact (no_close_of_split _ pre post k (by simp [Event.isClose]) heq).elim
  · rcases hst with ⟨-, rfl, -⟩ | ⟨-, a0, rfl, -⟩ <;>
    rcases hK with ⟨-, rfl⟩ | ⟨-, pe, rfl⟩ <;>
    · refine ⟨by simp [hres], by simp [Event.isStreamDial], by simp [Event.isSshDial],
        by simp [Event.isClose], ?_⟩
      intro pre k post heq
      rcases split_at_close _ _ pre post h k (by simp [Event.isClose]) heq with ⟨-, h2⟩ | h3
      · exact Or.inl ⟨a, e2, h2, hres⟩
      · simp [Event.isClose] at h3
  · rcases hst with ⟨-, rfl, -⟩ | ⟨-, a0, rfl, -⟩ <;>
    rcases hK with ⟨-, rfl⟩ | ⟨-, pe, rfl⟩ <;>
    · refine ⟨by simp [hres], by simp [Event.isStreamDial], by simp [Event.isSshDial],
        by simp [Event.isClose], ?_⟩
      intro pre k post heq
      rcases split_at_close _ _ pre post h k (by simp [Event.isClose]) heq with ⟨-, h2⟩ | h3
      · exact Or.inr ⟨a, h1, r, h2, hres⟩
      · simp [Event.isClose] at h3

/-- C3, as amended: in a call of `dial` in which no transport-establishment attempt
fails, the sum of the two forwarding counters grows by exactly 1, `established` once
when a stream is returned and `failed` once when an error is returned, however many
attempts were made; in a call in which a transport-establishment attempt fails with
an error `e` (the first attempt or the retried one), `dial` returns that error `e`,
neither forwarding counter changes, and `connections.failed` has grown by exactly
1. -/
theorem dial_counts_forwarding (ssh : Ssh σ) (network address : String) (s : Proc σ) :
    ∃ evs, (dial ssh network address s).2.trace = s.trace ++ evs ∧
      ((∀ a e, Event.sshDial a (.error e) ∉ evs) →
        (dial ssh network address s).2.metrics.forwarded = s.metrics.forwarded + 1 ∧
        (∀ conn, (dial ssh network address s).1 = some (.ok conn) →
          (dial ssh network address s).2.metrics.forwardings.established =
              s.metrics.forwardings.established + 1 ∧
            (dial ssh network address s).2.metrics.forwardings.failed =
              s.metrics.forwardings.failed) ∧
        (∀ err, (dial ssh network address s).1 = some (.error err) →
          (dial ssh network address s).2.metrics.forwardings.failed =
              s.metrics.forwardings.failed + 1 ∧
            (dial ssh network address s).2.metrics.forwardings.established =
              s.metrics.forwardings.established)) ∧
      (∀ a e, Event.sshDial a (.error e) ∈ evs →
        (dial ssh network address s).1 = some (.error e) ∧
        (dial ssh network address s).2.metrics.forwardings = s.metrics.forwardings ∧
        (dial ssh network address s).2.metrics.connections.failed =
          s.metrics.connections.failed + 1) := by
  obtain ⟨evs, htr, hp⟩ := dial_paths ssh network address s
  refine ⟨evs, htr, ?_⟩
  rcases hp with ⟨-, a, e, rfl, hres, -, hm⟩ | ⟨P, h, m, hst, conn, rfl, hres, -, hm⟩ |
    ⟨P, h, m, hst, e, -, rfl, hres, -, hm⟩ | ⟨P, h, m, hst, e, K, hK, a, e2, rfl, hres, -, hm⟩ |
    ⟨P, h, m, hst, e, K, hK, a, h1, r, rfl, hres, -, hm⟩
  · simp [hres, hm, Metrics.connFailed]
  · rcases hst with ⟨-, rfl, rfl⟩ | ⟨-, a, rfl, rfl⟩ <;>
      simp [hres, hm, Metrics.forwarded, Metrics.fwdEstablished, Metrics.connEstablished] <;>
      omega
  · rcases hst with ⟨-, rfl, rfl⟩ | ⟨-, a, rfl, rfl⟩ <;>
      simp [hres, hm, Metrics.forwarded, Metrics.fwdFailed, Metrics.connEstablished] <;>
      omega
  · rcases hst with ⟨-, rfl, rfl⟩ | ⟨-, a0, rfl, rfl⟩ <;>
    rcases hK with ⟨-, rfl⟩ | ⟨-, pe, rfl⟩ <;>
      simp [hres, hm, Metrics.connFailed, Metrics.connEstablished]
  · rcases hst with ⟨-, rfl, rfl⟩ | ⟨-, a0, rfl, rfl⟩ <;>
    rcases hK with ⟨-, rfl⟩ | ⟨-, pe, rfl⟩ <;>
    cases r <;>
      simp [hres, hm, Metrics.forwarded, Metrics.fwd, Metrics.fwdFailed, Metrics.fwdEstablished,
        Metrics.connEstablished] <;>
      omega

/-- C3 fails as stated: on a disconnected tunnel connection whose transport cannot be
established, `dial` returns the error of `connect` and the sum of the two forwarding
counters is what it was, not one more. -/
theorem dial_connect_failure_not_counted :
    (dial scripted "tcp" "db.internal:5432"
        (procAt none { dials := [.error (.other "no route to host")], opens := []
                       probes := [] })).1 = some (.error (.other "no route to host")) ∧
      (dial scripted "tcp" "db.internal:5432"
        (procAt none { dials := [.error (.other "no route to host")], opens := []
                       probes := [] })).2.metrics.forwarded = 0 ∧
      (procAt none { dials := [.error (.other "no route to host")], opens := []
                     probes := [] }).metrics.forwarded = 0 := by
  simp [dial, dialFrom_false_eq, connectIfNil, connect, scripted, procAt, Metrics.forwarded,
    Metrics.connFailed]

/-- C1, as amended: in a call of `dial` whose library calls end with the transport being
discarded, a new one established (`h1`) and the retried stream-open on it failing with
`e2`, that error is returned, `sshClient` is the newly established transport `h1` on
return (the connection is left connected), `forwardings.failed` has grown by exactly 1
and `forwardings.established` is unchanged. -/
theorem dial_retry_failed (ssh : Ssh σ) (network address : String) (s : Proc σ)
    (pre : List Event) (h0 h1 : Handle) (a : String) (e2 : GoError)
    (hrun : (dial ssh network address s).2.trace =
      s.trace ++ (pre ++ [Event.close h0, Event.sshDial a (.ok h1),
        Event.streamDial h1 network address (.error e2)])) :
    (dial ssh network address s).1 = some (.error e2) ∧
      (dial ssh network address s).2.cl.sshClient = some h1 ∧
      (dial ssh network address s).2.metrics.forwardings.failed =
        s.metrics.forwardings.failed + 1 ∧
      (dial ssh network address s).2.metrics.forwardings.established =
        s.metrics.forwardings.established := by
  obtain ⟨evs, htr, hp⟩ := dial_paths ssh network address s
  rw [htr] at hrun
  have hev := congrArg List.reverse (List.append_cancel_left hrun)
  rcases hp with ⟨-, a, e, rfl, hres, -, hm⟩ | ⟨P, h, m, hst, conn, rfl, hres, -, hm⟩ |
    ⟨P, h, m, hst, e, -, rfl, hres, -, hm⟩ | ⟨P, h, m, hst, e, K, hK, a, e3, rfl, hres, -, hm⟩ |
    ⟨P, h, m, hst, e, K, hK, a, h2, r, rfl, hres, hc, hm⟩
  · simp at hev
  · simp at hev
  · simp at hev
  · simp at hev
  · simp at hev
    obtain ⟨⟨rfl, rfl⟩, -⟩ := hev
    rcases hst with ⟨-, rfl, rfl⟩ | ⟨-, a0, rfl, rfl⟩ <;>
      simp [hres, hc, hm, Metrics.fwd, Metrics.fwdFailed, Metrics.connEstablished]

/-- A run of C1's amended statement: the first stream-open meets end-of-stream, the
transport 1 is discarded, transport 2 is established and the retried stream-open is
refused. -/
theorem dial_retry_failed_witness :
    (dial scripted "tcp" "db.internal:5432"
        (procAt (some 1) { dials := [.ok 2]
                           opens := [.error .EOF, .error (.other "connection refused")]
                           probes := [] })).1 = some (.error (.other "connection refused")) ∧
      (dial scripted "tcp" "db.internal:5432"
        (procAt (some 1) { dials := [.ok 2]
                           opens := [.error .EOF, .error (.other "connection refused")]
                           probes := [] })).2.cl.sshClient = some 2 ∧
      (dial scripted "tcp" "db.internal:5432"
        (procAt (some 1) { dials := [.ok 2]
                           opens := [.error .EOF, .error (.other "connection refused")]
                           probes := [] })).2.metrics.forwardings.failed = 0 + 1 ∧
      (dial scripted "tcp" "db.internal:5432"
        (procAt (some 1) { dials := [.ok 2]
                           opens := [.error .EOF, .error (.other "connection refused")]
                           probes := [] })).2.metrics.forwardings.established = 0 :=
  dial_retry_failed scripted "tcp" "db.internal:5432"
    (procAt (some 1) { dials := [.ok 2]
                       opens := [.error .EOF, .error (.other "connection refused")]
                       probes := [] })
    [Event.streamDial 1 "tcp" "db.internal:5432" (.error .EOF)] 1 2 jumpKey.hostPort
    (.other "connection refused")
    (by simp [dial, dialFrom_false_eq, dialFrom_true_eq, connectIfNil, connect, streamDial_eq,
      brokenTransport, discard, finish_eq, scripted, procAt])

/-- C1 fails as stated: when the first stream-open fails on end-of-stream and the
retried stream-open on the re-established transport fails too, `dial` returns the
error and counts one failed forwarding, but `sshClient` is the new transport 2 on
return, not nil. -/
theorem dial_retry_failed_stays_connected :
    (dial scripted "tcp" "db.internal:5432"
        (procAt (some 1) { dials := [.ok 2]
                           opens := [.error .EOF, .error (.other "connection refused")]
                           probes := [] })).2.trace =
      [Event.streamDial 1 "tcp" "db.internal:5432" (.error .EOF), Event.close 1,
        Event.sshDial jumpKey.hostPort (.ok 2),
        Event.streamDial 2 "tcp" "db.internal:5432" (.error (.other "connection refused"))] ∧
      (dial scripted "tcp" "db.internal:5432"
        (procAt (some 1) { dials := [.ok 2]
                           opens := [.error .EOF, .error (.other "connection refused")]
                           probes := [] })).1 = some (.error (.other "connection refused")) ∧
      (dial scripted "tcp" "db.internal:5432"
        (procAt (some 1) { dials := [.ok 2]
                           opens := [.error .EOF, .error (.other "connection refused")]
                           probes := [] })).2.cl.sshClient = some 2 ∧
      (dial scripted "tcp" "db.internal:5432"
        (procAt (some 1) { dials := [.ok 2]
                           opens := [.error .EOF, .error (.other "connection refused")]
                           probes := [] })).2.cl.sshClient ≠ none := by
  simp [dial, dialFrom_false_eq, dialFrom_true_eq, connectIfNil, connect, streamDial_eq,
    brokenTransport, discard, finish_eq, scripted, procAt]

/-- C2: on a connected tunnel connection (transport `h0`), when the first stream-open
fails with `e1` and the transport is dead (`e1` is `io.EOF`, or the keep-alive request
returns an error), the re-establishment succeeds with `h1` and the second stream-open
succeeds with `conn`: `dial` returns `conn` with no error, `sshClient` is `h1` on
return, `forwardings.established` has grown by exactly 1 and `forwardings.failed` is
unchanged. -/
theorem dial_reconnects_once (ssh : Ssh σ) (network address : String) (s : Proc σ)
    (h0 h1 : Handle) (e1 : GoError) (conn : Conn) (w1 w2 w3 w4 : σ)
    (hconn : s.cl.sshClient = some h0)
    (hfirst : ssh.ClientDial h0 network address s.world = (.error e1, w1))
    (hdead : (e1 = GoError.EOF ∧ w2 = w1) ∨
      (e1 ≠ GoError.EOF ∧ ∃ pe, ssh.SendRequest h0 w1 = (some pe, w2)))
    (hre : ssh.Dial s.cl.key.hostPort (ssh.Close h0 w2) = (.ok h1, w3))
    (hsecond : ssh.ClientDial h1 network address w3 = (.ok conn, w4)) :
    (dial ssh network address s).1 = some (.ok conn) ∧
      (dial ssh network address s).2.cl.sshClient = some h1 ∧
      (dial ssh network address s).2.metrics.forwardings.established =
        s.metrics.forwardings.established + 1 ∧
      (dial ssh network address s).2.metrics.forwardings.failed =
        s.metrics.forwardings.failed := by
  rcases hdead with ⟨he, rfl⟩ | ⟨he, pe, hp⟩
  · simp [dial, dialFrom_false_eq, dialFrom_true_eq, connectIfNil, connect, hconn,
      streamDial_eq, hfirst, brokenTransport, he, discard, hre, hsecond, finish_eq,
      Metrics.fwd, Metrics.fwdEstablished, Metrics.connEstablished]
  · simp [dial, dialFrom_false_eq, dialFrom_true_eq, connectIfNil, connect, hconn,
      streamDial_eq, hfirst, brokenTransport, he, isAlive_eq, hp, discard, hre, hsecond,
      finish_eq, Metrics.fwd, Metrics.fwdEstablished, Metrics.connEstablished]

/-- A run of C2: the first stream-open on transport 1 fails with a broken pipe, the
keep-alive fails, transport 2 is established and the second stream-open gives
stream 7. -/
theorem dial_reconnects_once_witness :
    (dial scripted "tcp" "db.internal:5432"
        (procAt (some 1) { dials := [.ok 2], opens := [.error (.other "broken pipe"), .ok 7]
                           probes := [some .EOF] })).1 = some (.ok 7) ∧
      (dial scripted "tcp" "db.internal:5432"
        (procAt (some 1) { dials := [.ok 2], opens := [.error (.other "broken pipe"), .ok 7]
                           probes := [some .EOF] })).2.cl.sshClient = some 2 ∧
      (dial scripted "tcp" "db.internal:5432"
        (procAt (some 1) { dials := [.ok 2], opens := [.error (.other "broken pipe"), .ok 7]
                           probes := [some .EOF] })).2.metrics.forwardings.established =
        0 + 1 ∧
      (dial scripted "tcp" "db.internal:5432"
        (procAt (some 1) { dials := [.ok 2], opens := [.error (.other "broken pipe"), .ok 7]
                           probes := [some .EOF] })).2.metrics.forwardings.failed = 0 :=
  dial_reconnects_once scripted "tcp" "db.internal:5432"
    (procAt (some 1) { dials := [.ok 2], opens := [.error (.other "broken pipe"), .ok 7]
                       probes := [some .EOF] })
    1 2 (.other "broken pipe") 7
    { dials := [.ok 2], opens := [.ok 7], probes := [some .EOF] }
    { dials := [.ok 2], opens := [.ok 7], probes := [] }
    { dials := [], opens := [.ok 7], probes := [] }
    { dials := [], opens := [], probes := [] }
    rfl rfl (Or.inr ⟨by decide, .EOF, rfl⟩) rfl rfl


/-! ## The request router: `ServeHTTP` -/

/-- C6, as amended: for every inbound request whose target holds fewer than two
slashes, so that it splits into fewer than three parts (`/jump`, `jump`, the empty
target), `ServeHTTP` answers 422 with no header and no body and does nothing else: no
outbound request is built or sent, and the world behind the HTTP client is untouched.
(A target with two slashes and an empty segment is not covered: it passes this
test.) -/
theorem ServeHTTP_rejects_short_target {ω : Type} (lib : HttpLib ω) (r : Request) (world : ω)
    (hshort : r.RequestURI.data.count '/' < 2) :
    (ServeHTTP lib ResponseWriter.fresh r world).w.wrote = some (422, []) ∧
      (ServeHTTP lib ResponseWriter.fresh r world).w.body = [] ∧
      (ServeHTTP lib ResponseWriter.fresh r world).calls = [] ∧
      (ServeHTTP lib ResponseWriter.fresh r world).world = world := by
  rw [ServeHTTP_short lib _ r world (splitChars_short '/' _ hshort)]
  exact ⟨rfl, rfl, rfl, rfl⟩

/-- An instance of C6's amended statement: the target `/jump`. -/
theorem ServeHTTP_rejects_short_target_witness :
    (ServeHTTP (failingLib (.other "http: no Host in request URL")) ResponseWriter.fresh
        (inbound "GET" "/jump" [] []) ()).w.wrote = some (422, []) ∧
      (ServeHTTP (failingLib (.other "http: no Host in request URL")) ResponseWriter.fresh
        (inbound "GET" "/jump" [] []) ()).w.body = [] ∧
      (ServeHTTP (failingLib (.other "http: no Host in request URL")) ResponseWriter.fresh
        (inbound "GET" "/jump" [] []) ()).calls = [] ∧
      (ServeHTTP (failingLib (.other "http: no Host in request URL")) ResponseWriter.fresh
        (inbound "GET" "/jump" [] []) ()).world = () :=
  ServeHTTP_rejects_short_target (failingLib (.other "http: no Host in request URL"))
    (inbound "GET" "/jump" [] []) () (by decide)

/-- C6 fails as stated: the target `/jump/` has an empty destination segment, yet it
splits into three parts, an outbound request to `http://` is built and handed to the
client, and the answer is the 502 of the failed send, not 422. -/
theorem ServeHTTP_empty_segment_passes :
    SplitN "/jump/" '/' 3 = ["", "jump", ""] ∧
      (ServeHTTP (failingLib (.other "http: no Host in request URL")) ResponseWriter.fresh
        (inbound "GET" "/jump/" [] []) ()).w.wrote = some (502, []) ∧
      (ServeHTTP (failingLib (.other "http: no Host in request URL")) ResponseWriter.fresh
        (inbound "GET" "/jump/" [] []) ()).calls =
        [HttpCall.newRequest "GET" "http://",
          HttpCall.httpDo
            { Method := "GET", URL := "http://", RequestURI := "", Header := []
              Body := some [], jumpHost := some "jump" }
            (.error (.other "http: no Host in request URL"))] := by
  refine ⟨by decide, ?_, ?_⟩ <;>
    simp [ServeHTTP, SplitN, splitChars, cut, NewRequest, failingLib, inbound, Fprintln,
      ResponseWriter.Write, ResponseWriter.WriteHeader, ResponseWriter.fresh]

/-- C7, as amended: for every inbound request with a non-empty method and a target
`/<jump>/<rest>` (`jump` without a slash) that `http.NewRequest` accepts, the outbound
request handed to the client has the inbound method and the inbound body, carries
`jump` as its jump-host spec, and its URL is `http://` followed by all of `rest`: the
destination host and port together with every further path segment and the query
string of the inbound target, which are forwarded, not stripped. -/
theorem ServeHTTP_outbound_request {ω : Type} (lib : HttpLib ω) (r : Request) (world : ω)
    (jump rest : String) (hj : '/' ∉ jump.data)
    (huri : r.RequestURI = "/" ++ jump ++ "/" ++ rest) (hm : r.Method ≠ "")
    (hok : lib.checkRequest r.Method ("http://" ++ rest) = none) :
    ∃ res, (ServeHTTP lib ResponseWriter.fresh r world).calls =
      [HttpCall.newRequest r.Method ("http://" ++ rest),
        HttpCall.httpDo
          { Method := r.Method, URL := "http://" ++ rest, RequestURI := "", Header := []
            Body := r.Body, jumpHost := some jump } res] := by
  unfold ServeHTTP
  rw [huri, SplitN_target jump rest hj]
  simp only [NewRequest, hok, hm, if_false]
  rcases hd : lib.Do { Method := r.Method, URL := "http://" ++ rest, RequestURI := ""
                       Header := [], Body := r.Body, jumpHost := some jump } world with
    ⟨res, w1⟩
  cases res with
  | error err => exact ⟨_, rfl⟩
  | ok res => exact ⟨_, rfl⟩

/-- An instance of C7's amended statement: a target with a path and a query after the
destination. -/
theorem ServeHTTP_outbound_request_witness :
    ∃ res, (ServeHTTP (failingLib (.other "connection refused")) ResponseWriter.fresh
        (inbound "POST" ("/" ++ "alice@jump.example:2222" ++ "/" ++
          "db.internal:5432/metrics?x=1") [] [1, 2]) ()).calls =
      [HttpCall.newRequest "POST" ("http://" ++ "db.internal:5432/metrics?x=1"),
        HttpCall.httpDo
          { Method := "POST", URL := "http://" ++ "db.internal:5432/metrics?x=1"
            RequestURI := "", Header := [], Body := some [1, 2]
            jumpHost := some "alice@jump.example:2222" } res] :=
  ServeHTTP_outbound_request (failingLib (.other "connection refused"))
    (inbound "POST" ("/" ++ "alice@jump.example:2222" ++ "/" ++
      "db.internal:5432/metrics?x=1") [] [1, 2]) ()
    "alice@jump.example:2222" "db.internal:5432/metrics?x=1" (by decide) rfl (by decide) rfl

/-- C7 fails as stated: for the target `/jump.example/db.internal:5432/metrics?x=1` the
URL of the outbound request is `http://db.internal:5432/metrics?x=1`, which is not
`http://db.internal:5432`: the path and the query after the destination are
forwarded. -/
theorem ServeHTTP_forwards_path_and_query :
    ((ServeHTTP (failingLib (.other "connection refused")) ResponseWriter.fresh
        (inbound "GET" "/jump.example/db.internal:5432/metrics?x=1" [] []) ()).calls.filterMap
          HttpCall.sent).map Request.URL = ["http://db.internal:5432/metrics?x=1"] ∧
      "http://db.internal:5432/metrics?x=1" ≠ "http://db.internal:5432" := by
  refine ⟨?_, by decide⟩
  simp [ServeHTTP, SplitN, splitChars, cut, NewRequest, failingLib, inbound, HttpCall.sent]

/-- C9, as amended: every outbound request `ServeHTTP` sends has an empty header map,
as `http.NewRequest` built it (no header of the inbound request is copied to it), and
its body is the inbound body. -/
theorem ServeHTTP_outbound_header {ω : Type} (lib : HttpLib ω) (w : ResponseWriter)
    (r : Request) (world : ω) (req : Request) (res : Except GoError Response)
    (hsent : HttpCall.httpDo req res ∈ (ServeHTTP lib w r world).calls) :
    req.Header = [] ∧ req.Body = r.Body := by
  rcases ServeHTTP_calls_cases lib w r world with h | ⟨dest, err, h⟩ |
    ⟨p0, jump, dest, req0, -, hn, ⟨err, -, h⟩ | ⟨res1, -, h⟩⟩
  · simp [h] at hsent
  · simp [h] at hsent
  · rw [h] at hsent
    simp at hsent
    rw [hsent.1, NewRequest_ok lib _ _ req0 hn]
    exact ⟨rfl, rfl⟩
  · rw [h] at hsent
    simp at hsent
    rw [hsent.1, NewRequest_ok lib _ _ req0 hn]
    exact ⟨rfl, rfl⟩

/-- An instance of C9's amended statement: an inbound request with a header
`X-Token`. -/
theorem ServeHTTP_outbound_header_witness :
    (({ Method := "GET", URL := "http://dest:80", RequestURI := "", Header := []
        Body := some [], jumpHost := some "jump" } : Request).Header = []) ∧
      ({ Method := "GET", URL := "http://dest:80", RequestURI := "", Header := []
         Body := some [], jumpHost := some "jump" } : Request).Body =
        (inbound "GET" "/jump/dest:80" [("X-Token", ["abc"])] []).Body :=
  ServeHTTP_outbound_header (failingLib (.other "connection refused")) ResponseWriter.fresh
    (inbound "GET" "/jump/dest:80" [("X-Token", ["abc"])] []) ()
    { Method := "GET", URL := "http://dest:80", RequestURI := "", Header := []
      Body := some [], jumpHost := some "jump" }
    (.error (.other "connection refused"))
    (by simp [ServeHTTP, SplitN, splitChars, cut, NewRequest, failingLib, inbound])

/-- C9 fails as stated: the inbound request carries the header `X-Token: abc`, and the
one outbound request sent has no value under `X-Token`. -/
theorem ServeHTTP_drops_request_header :
    Header.Values (inbound "GET" "/jump/dest:80" [("X-Token", ["abc"])] []).Header "X-Token" =
        ["abc"] ∧
      ((ServeHTTP (failingLib (.other "connection refused")) ResponseWriter.fresh
        (inbound "GET" "/jump/dest:80" [("X-Token", ["abc"])] []) ()).calls.filterMap
          HttpCall.sent).map (fun req => Header.Values req.Header "X-Token") = [[]] := by
  refine ⟨by decide, ?_⟩
  simp [ServeHTTP, SplitN, splitChars, cut, NewRequest, failingLib, inbound, HttpCall.sent,
    Header.Values]

/-- C4: on a connected tunnel connection (transport `h`) whose stream-open fails with an
error `e` other than `io.EOF` while the keep-alive request succeeds, `dial` returns `e`
after exactly one stream-open and one keep-alive, with no transport establishment and
no discard, and leaves the receiver (`sshClient` included) as it was; and for an HTTP
client whose `Do` fails with the dial's error (wrapped by `wrap`, as `net/http`
does) when its dialing step `dial` fails, `ServeHTTP` answers a well-formed request
with status 502 and that error's text, followed by a newline, as the body, the
tunnel connection still holding the same transport. -/
theorem ServeHTTP_bad_gateway (ssh : Ssh σ) (lib : HttpLib (Proc σ)) (wrap : GoError → GoError)
    (network address : String) (s : Proc σ) (h : Handle) (e : GoError) (w1 w2 : σ)
    (r : Request) (p0 jump dest : String)
    (hconn : s.cl.sshClient = some h)
    (hopen : ssh.ClientDial h network address s.world = (.error e, w1))
    (hne : e ≠ GoError.EOF)
    (halive : ssh.SendRequest h w1 = (none, w2))
    (huri : SplitN r.RequestURI '/' 3 = [p0, jump, dest])
    (hok : lib.checkRequest r.Method ("http://" ++ dest) = none)
    (hbind : ∀ req err s1, dial ssh network address s = (some (.error err), s1) →
      lib.Do req s = (.error (wrap err), s1)) :
    (dial ssh network address s).1 = some (.error e) ∧
      (dial ssh network address s).2.cl = s.cl ∧
      (dial ssh network address s).2.trace = s.trace ++
        [Event.streamDial h network address (.error e), Event.keepAlive h none] ∧
      (ServeHTTP lib ResponseWriter.fresh r s).w.wrote = some (502, []) ∧
      (ServeHTTP lib ResponseWriter.fresh r s).w.body = bytesOf ((wrap e).Error ++ "\n") ∧
      (ServeHTTP lib ResponseWriter.fresh r s).world.cl = s.cl := by
  have hd : dial ssh network address s =
      (some (.error e),
        { s with world := w2
                 trace := s.trace ++
                   [Event.streamDial h network address (.error e), Event.keepAlive h none]
                 metrics := s.metrics.fwdFailed }) := by
    simp [dial, dialFrom_false_eq, connectIfNil, hconn, streamDial_eq, hopen, brokenTransport,
      hne, isAlive_eq, halive, finish_eq, Metrics.fwd]
  refine ⟨by rw [hd], by rw [hd], by rw [hd], ?_⟩
  unfold ServeHTTP
  simp only [huri, NewRequest, hok, hbind _ e _ hd]
  simp [Fprintln, ResponseWriter.Write, ResponseWriter.WriteHeader, ResponseWriter.fresh]

/-- An instance of C4: the destination refuses the connection while transport 1
answers the keep-alive. -/
theorem ServeHTTP_bad_gateway_witness :
    (dial scripted "tcp" "db.internal:5432"
        (procAt (some 1) { dials := [], opens := [.error (.other "connect failed")]
                           probes := [none] })).1 = some (.error (.other "connect failed")) ∧
      (dial scripted "tcp" "db.internal:5432"
        (procAt (some 1) { dials := [], opens := [.error (.other "connect failed")]
                           probes := [none] })).2.cl =
        (procAt (some 1) { dials := [], opens := [.error (.other "connect failed")]
                           probes := [none] }).cl ∧
      (dial scripted "tcp" "db.internal:5432"
        (procAt (some 1) { dials := [], opens := [.error (.other "connect failed")]
                           probes := [none] })).2.trace =
        (procAt (some 1) { dials := [], opens := [.error (.other "connect failed")]
                           probes := [none] }).trace ++
          [Event.streamDial 1 "tcp" "db.internal:5432" (.error (.other "connect failed")),
            Event.keepAlive 1 none] ∧
      (ServeHTTP (tunnelLib "tcp" "db.internal:5432") ResponseWriter.fresh
        (inbound "GET" "/alice@jump.example:2222/db.internal:5432" [] [])
        (procAt (some 1) { dials := [], opens := [.error (.other "connect failed")]
                           probes := [none] })).w.wrote = some (502, []) ∧
      (ServeHTTP (tunnelLib "tcp" "db.internal:5432") ResponseWriter.fresh
        (inbound "GET" "/alice@jump.example:2222/db.internal:5432" [] [])
        (procAt (some 1) { dials := [], opens := [.error (.other "connect failed")]
                           probes := [none] })).w.body =
        bytesOf ((wrapDial (.other "connect failed")).Error ++ "\n") ∧
      (ServeHTTP (tunnelLib "tcp" "db.internal:5432") ResponseWriter.fresh
        (inbound "GET" "/alice@jump.example:2222/db.internal:5432" [] [])
        (procAt (some 1) { dials := [], opens := [.error (.other "connect failed")]
                           probes := [none] })).world.cl =
        (procAt (some 1) { dials := [], opens := [.error (.other "connect failed")]
                           probes := [none] }).cl :=
  ServeHTTP_bad_gateway scripted (tunnelLib "tcp" "db.internal:5432") wrapDial
    "tcp" "db.internal:5432"
    (procAt (some 1) { dials := [], opens := [.error (.other "connect failed")]
                       probes := [none] })
    1 (.other "connect failed")
    { dials := [], opens := [], probes := [none] }
    { dials := [], opens := [], probes := [] }
    (inbound "GET" "/alice@jump.example:2222/db.internal:5432" [] [])
    "" "alice@jump.example:2222" "db.internal:5432"
    rfl rfl (by decide) rfl (by decide) rfl
    (fun _ err s1 hd => by simp [tunnelLib, hd])

/-! ## Start-up defaults: `sshTimeout` -/

theorem sshTimeout_cases (getenv : String → String)
    (ParseDuration : String → Duration × Option GoError) :
    (getenv "HOS_TIMEOUT" = "" → sshTimeout getenv ParseDuration = 10 * Second) ∧
    (∀ d, getenv "HOS_TIMEOUT" ≠ "" → ParseDuration (getenv "HOS_TIMEOUT") = (d, none) →
      sshTimeout getenv ParseDuration = 10 * Second) ∧
    (∀ d err, getenv "HOS_TIMEOUT" ≠ "" →
      ParseDuration (getenv "HOS_TIMEOUT") = (d, some err) →
      sshTimeout getenv ParseDuration = d) := by
  refine ⟨fun h => by simp [sshTimeout, h], fun d h hp => by simp [sshTimeout, h, hp],
    fun d err h hp => by simp [sshTimeout, h, hp]⟩

/-- C10 does not hold of the code: with `HOS_TIMEOUT` set to `30s`, which parses as
thirty seconds, the default timeout is 10 seconds, and with `HOS_TIMEOUT` set to
`abc`, which does not parse, it is the zero duration `time.ParseDuration` returns with
its error, not 10 seconds: the test `err != nil` of the initialiser is the wrong way
round. -/
theorem sshTimeout_ignores_valid_duration :
    parseSample "30s" = (30 * Second, none) ∧
      sshTimeout (envWith "30s") parseSample = 10 * Second ∧
      (parseSample "abc").1 = 0 ∧ (parseSample "abc").2 ≠ none ∧
      sshTimeout (envWith "abc") parseSample = 0 := by
  have h30 : envWith "30s" "HOS_TIMEOUT" = "30s" := by decide
  have habc : envWith "abc" "HOS_TIMEOUT" = "abc" := by decide
  have p30 : parseSample "30s" = (30 * Second, none) := by decide
  have pabc : parseSample "abc" =
      (0, some (GoError.other ("time: invalid duration " ++ "abc"))) := by decide
  refine ⟨p30, ?_, by rw [pabc], by rw [pabc]; simp, ?_⟩
  · exact (sshTimeout_cases (envWith "30s") parseSample).2.1 (30 * Second)
      (by rw [h30]; decide) (by rw [h30]; exact p30)
  · exact (sshTimeout_cases (envWith "abc") parseSample).2.2 0 _
      (by rw [habc]; decide) (by rw [habc]; exact pabc)

end HttpOverSsh
